import Mathlib

/-!
Shallow embedding of the routes4life API core: the TTL key-value cache with
the reset-code / session-token managers (`config/routes4life_api/utils.py`),
the place filter engine (`config/routes4life_api/serializers.py`,
`PlaceFilterNewSerializer`), the filter-parameter validation
(`config/routes4life_api/validators.py` plus the serializer field
declarations), and the category-split presentation
(`config/routes4life_api/views.py`, `FilterPlacesNewAPIView.post`).

Times are modelled as natural numbers (seconds); geographic collaborator
predicates (the 0.05-degree `dwithin` prefilter, the kilometre distance,
the geometry distance used for ordering) are abstract function parameters,
as the spec treats the spatial store as an external collaborator.
-/

namespace Routes4Life

/-! ## TTL cache (Django `django.core.cache.cache`, local-memory semantics)

An entry is a (key, value, expiry) triple; an entry is live at time `now`
iff `now < expiry`.  `add` is add-if-absent; `delete` removes the key. -/

abbrev Cache := List (String × String × Nat)

def cacheGet (c : Cache) (now : Nat) (key : String) : Option String :=
  match c.find? (fun e => e.1 == key) with
  | none => none
  | some e => if now < e.2.2 then some e.2.1 else none

def cacheAdd (c : Cache) (now : Nat) (key val : String) (timeout : Nat) : Cache :=
  match cacheGet c now key with
  | some _ => c
  | none => (key, val, now + timeout) :: c.filter (fun e => !(e.1 == key))

def cacheDelete (c : Cache) (key : String) : Cache :=
  c.filter (fun e => !(e.1 == key))

/-! ## ResetCodeManager / SessionTokenManager (`utils.py` lines 11-52)

`get_or_create_code(email)`: key = email ++ "__code"; if a live cached code
exists return it, else add a freshly generated 4-digit code with a 2-minute
TTL and return `cache.get(key)`.  The random generator is modelled by the
explicit `fresh` argument; the Python function returns `cache.get(key)`
whose result is optional, hence the `Option String` result.

`try_use_code(email, code)`: if `cache.get(key) != code` return false,
else delete the key and return true. -/

def reset_code_ttl : Nat := 120

def session_token_ttl : Nat := 600

def get_or_create_code (c : Cache) (now : Nat) (email fresh : String) :
    Option String × Cache :=
  let key := email ++ "__code"
  match cacheGet c now key with
  | some code => (some code, c)
  | none =>
    let c' := cacheAdd c now key fresh reset_code_ttl
    (cacheGet c' now key, c')

def try_use_code (c : Cache) (now : Nat) (email code : String) : Bool × Cache :=
  let key := email ++ "__code"
  if cacheGet c now key ≠ some code then (false, c)
  else (true, cacheDelete c key)

def get_or_create_token (c : Cache) (now : Nat) (email fresh : String) :
    Option String × Cache :=
  let key := email ++ "__token"
  match cacheGet c now key with
  | some token => (some token, c)
  | none =>
    let c' := cacheAdd c now key fresh session_token_ttl
    (cacheGet c' now key, c')

def try_use_token (c : Cache) (now : Nat) (email token : String) : Bool × Cache :=
  let key := email ++ "__token"
  if cacheGet c now key ≠ some token then (false, c)
  else (true, cacheDelete c key)

/-! ## Data model (`models.py`)

`Place` (lines 87-102): owner `added_by`, free-text `category` column,
`location` point (stored here as rational lon/lat, WKT order).
`PlaceRating` (lines 114-122): a (user, place) pair with a decimal rating.
A `DB` is the queryable state: the place and rating collections. -/

structure Place where
  id : Nat
  added_by : Nat
  name : String
  address : String
  category : String
  lon : ℚ
  lat : ℚ
deriving DecidableEq

structure PlaceRating where
  user : Nat
  place : Nat
  rating : ℚ
deriving DecidableEq

structure DB where
  places : List Place
  ratings : List PlaceRating
deriving DecidableEq

/-! ## Validators (`validators.py`) and the `PlaceFilterNewSerializer`
field validation (`serializers.py` lines 426-439)

Each `validate_*` mirrors the corresponding Python validator: it returns
`false` exactly when the Python validator raises `ValidationError`.
`validate_category` exists in `validators.py` but is attached only to the
place create/update serializer (`serializers.py` line 242), not to the
filter serializer's `categories` list field, whose members are plain
`CharField(max_length=50)`. -/

def validate_latitude (v : ℚ) : Bool := !(v < -90 || v > 90)

def validate_longitude (v : ℚ) : Bool := !(v < -180 || v > 180)

def validate_rating (v : ℚ) : Bool := !(v < 0 || v > 5)

def validate_distance (v : ℚ) : Bool := !(v ≤ 0 || v ≥ 40076)

def validate_place_ordering (v : String) : Bool :=
  ["distance", "-distance", "rating", "-rating"].contains v

/-- A value acceptable to `serializers.DecimalField(3, 2)`: at most three
significant digits of which two are decimal places. -/
def validDecimal3_2 (q : ℚ) : Bool := (q * 100).den == 1 && (q * 100).num.natAbs ≤ 999

/-- Whitespace as stripped by Python's `str.strip` (ASCII range). -/
def isStripSpace (c : Char) : Bool :=
  c == ' ' || c == '\t' || c == '\n' || c == '\r' || c == '\x0b' || c == '\x0c'

def trimChars (s : List Char) : List Char :=
  ((s.dropWhile isStripSpace).reverse.dropWhile isStripSpace).reverse

/-- Python's `value.strip()`, applied by DRF `CharField` with its default
`trim_whitespace=True`. -/
def strTrim (s : String) : String := ⟨trimChars s.data⟩

/-- What a member of `categories` must satisfy to pass the declared child
field `CharField(max_length=50)` with DRF defaults: not blank after
whitespace trimming (`allow_blank=False`, `trim_whitespace=True`) and at
most 50 characters after trimming.  Enumeration membership is not part of
this check. -/
def validCategoryMember (cat : String) : Bool :=
  !(strTrim cat == "") && (strTrim cat).length ≤ 50

/-- Raw (pre-validation) request body for `PlaceFilterNewSerializer`:
`none` in a required field models its absence from the request. -/
structure RawFilterParams where
  apply_filters : Option Bool
  split_categories : Option Bool
  latitude : Option ℚ
  longitude : Option ℚ
  distance : Option ℚ
  categories : Option (List String)
  rating : Option ℚ
  ordering : Option String
deriving DecidableEq

/-- Validated parameter set reaching `get_filters_applied_queryset`. -/
structure FilterParams where
  apply_filters : Bool
  split_categories : Bool
  latitude : ℚ
  longitude : ℚ
  distance : Option ℚ
  categories : Option (List String)
  rating : Option ℚ
  ordering : Option String
deriving DecidableEq

/-- `PlaceFilterNewSerializer.is_valid`: required fields must be present,
every present field must pass its declared validators.  `none` models
`raise_exception=True` rejecting the request before the engine runs. -/
def validFilterParams (r : RawFilterParams) : Option FilterParams :=
  match r.apply_filters, r.split_categories, r.latitude, r.longitude with
  | some af, some sc, some lat, some lon =>
    if validate_latitude lat && validate_longitude lon
        && (match r.distance with
            | none => true
            | some d => validate_distance d)
        && (match r.categories with
            | none => true
            | some cs => cs.all validCategoryMember)
        && (match r.rating with
            | none => true
            | some q => validDecimal3_2 q)
        && (match r.ordering with
            | none => true
            | some o => validate_place_ordering o)
    then some ⟨af, sc, lat, lon, r.distance,
              r.categories.map (fun cs => cs.map strTrim), r.rating, r.ordering⟩
    else none
  | _, _, _, _ => none

/-! ## Rating aggregation (`serializers.py`)

`get_rating` (lines 295-300) is the display projection: the first rating
record of the context user on the place, default 0.
`ratingAvg` is the `Avg` annotation of lines 484-490: SQL `AVG`
over the requesting user's rating rows on the place — `NULL` (here `none`)
over zero rows, the arithmetic mean otherwise. -/

def userPlaceRatings (db : DB) (user : Nat) (placeId : Nat) : List PlaceRating :=
  db.ratings.filter (fun rt => rt.user == user && rt.place == placeId)

def get_rating (db : DB) (user : Nat) (placeId : Nat) : ℚ :=
  match userPlaceRatings db user placeId with
  | [] => 0
  | rt :: _ => rt.rating

def ratingAvg (db : DB) (user : Nat) (placeId : Nat) : Option ℚ :=
  match userPlaceRatings db user placeId with
  | [] => none
  | rs => some ((rs.map (fun rt => rt.rating)).sum / rs.length)

/-! ## Ordering step (`order_by` on the annotated queryset)

`order_by` is a stable sort on the annotation named by the ordering
string; a leading "-" sorts descending.  For the rating annotation the
database's `NULL` ordering places `none` after every value ascending and
before every value descending, which is the flipped comparison with
`none` as the greatest element. -/

def insertSorted (le : Place → Place → Bool) (a : Place) : List Place → List Place
  | [] => [a]
  | b :: t => if le a b then a :: b :: t else b :: insertSorted le a t

def sortPlaces (le : Place → Place → Bool) : List Place → List Place
  | [] => []
  | a :: t => insertSorted le a (sortPlaces le t)

/-- `none` (SQL `NULL`) compares as the greatest element. -/
def leOptRat : Option ℚ → Option ℚ → Bool
  | none, none => true
  | none, some _ => false
  | some _, none => true
  | some a, some b => decide (a ≤ b)

/-- `sub` occurs as a prefix of some suffix of the character list. -/
def hasSubstringAux (sub : List Char) : List Char → Bool
  | [] => sub.isPrefixOf []
  | c :: t => sub.isPrefixOf (c :: t) || hasSubstringAux sub t

/-- Python's substring containment `sub in s`. -/
def hasSubstring (s sub : String) : Bool := hasSubstringAux sub.data s.data

/-- Python's `s.startswith(pre)`: the `order_by` direction test. -/
def strStartsWith (s pre : String) : Bool := pre.data.isPrefixOf s.data

def orderPlaces (db : DB) (user : Nat) (geomDist : ℚ → ℚ → Place → ℚ)
    (qlon qlat : ℚ) (ordering : String) (qs : List Place) : List Place :=
  if hasSubstring ordering "distance" then
    if strStartsWith ordering "-" then
      sortPlaces (fun a b => decide (geomDist qlon qlat b ≤ geomDist qlon qlat a)) qs
    else
      sortPlaces (fun a b => decide (geomDist qlon qlat a ≤ geomDist qlon qlat b)) qs
  else if hasSubstring ordering "rating" then
    if strStartsWith ordering "-" then
      sortPlaces (fun a b =>
        leOptRat (ratingAvg db user b.id) (ratingAvg db user a.id)) qs
    else
      sortPlaces (fun a b =>
        leOptRat (ratingAvg db user a.id) (ratingAvg db user b.id)) qs
  else qs

/-! ## Place filter engine
(`PlaceFilterNewSerializer.get_filters_applied_queryset`,
`serializers.py` lines 441-491)

The three spatial collaborators are abstract parameters:
`dwithin qlon qlat pl` is `location__dwithin=(current_point, 0.05)`,
`distKm qlon qlat pl` the kilometre distance of `location__distance_lte`,
`geomDist` the `GeometryDistance` ordering annotation. -/

def baseQueryset (db : DB) (user : Nat) (dwithin : ℚ → ℚ → Place → Bool)
    (p : FilterParams) : List Place :=
  if p.apply_filters then
    db.places.filter (fun pl => pl.added_by == user && dwithin p.longitude p.latitude pl)
  else
    db.places.filter (fun pl => pl.added_by == user)

/-- The single `qs.filter(**filter_data)` call: the kilometre distance
bound (defaulting to 5.0 km when `distance` is omitted) together with the
optional `category__in` restriction. -/
def geoCategoryFilter (distKm : ℚ → ℚ → Place → ℚ) (p : FilterParams)
    (qs : List Place) : List Place :=
  let dist := p.distance.getD 5
  qs.filter (fun pl =>
    decide (distKm p.longitude p.latitude pl ≤ dist) &&
    (match p.categories with
     | none => true
     | some cs => cs.contains pl.category))

/-- `place.ratings.filter(user=place.added_by)`. -/
def ownerRatings (db : DB) (pl : Place) : List PlaceRating :=
  db.ratings.filter (fun rt => rt.user == pl.added_by && rt.place == pl.id)

/-- The loop body's test (`serializers.py` lines 472-476):
`ratings_from_author.exists() and ratings_from_author[0].rating < rating`. -/
def lowOwnerRated (db : DB) (r : ℚ) (pl : Place) : Bool :=
  match ownerRatings db pl with
  | [] => false
  | rt :: _ => decide (rt.rating < r)

/-- The rating-threshold exclusion loop (`serializers.py` lines 469-478):
collect the ids of surviving places whose first owner-rating record is
strictly below the threshold, then `exclude(id__in=...)`. -/
def ratingExclusion (db : DB) (rating : Option ℚ) (qs : List Place) : List Place :=
  match rating with
  | none => qs
  | some r =>
    let place_ids_to_exclude := (qs.filter (lowOwnerRated db r)).map (fun pl => pl.id)
    qs.filter (fun pl => !(place_ids_to_exclude.contains pl.id))

def get_filters_applied_queryset (db : DB) (user : Nat)
    (dwithin : ℚ → ℚ → Place → Bool) (distKm geomDist : ℚ → ℚ → Place → ℚ)
    (p : FilterParams) : List Place :=
  let qs := baseQueryset db user dwithin p
  if !p.apply_filters then qs
  else
    orderPlaces db user geomDist p.longitude p.latitude (p.ordering.getD "")
      (ratingExclusion db p.rating (geoCategoryFilter distKm p qs))

/-! ## Category split (`views.py`, `FilterPlacesNewAPIView.post`
lines 403-413)

`qs.values("category").annotate(Count("category"))` yields the distinct
categories of the queryset with their counts; categories with a nonzero
count map to the first ten places of that category. -/

def splitByCategories (qs : List Place) : List (String × List Place) :=
  ((qs.map (fun pl => pl.category)).dedup.filter
      (fun cat => decide (0 < qs.countP (fun pl => pl.category == cat)))).map
    (fun cat => (cat, (qs.filter (fun pl => pl.category == cat)).take 10))

/-- Twelve places of category "city", the spec's over-capacity scenario. -/
def cityPlaces12 : List Place :=
  (List.range 12).map (fun i => ⟨i, 0, "n", "a", "city", 0, 0⟩)

/-! ## Cache lemmas -/

theorem cacheGet_cacheDelete (c : Cache) (now : Nat) (key : String) :
    cacheGet (cacheDelete c key) now key = none := by
  induction c with
  | nil => rfl
  | cons e t ih =>
    cases h : (e.1 == key) with
    | true => simpa [cacheDelete, List.filter_cons, h] using ih
    | false =>
      simpa [cacheGet, cacheDelete, List.filter_cons, List.find?_cons, h] using ih

theorem cacheGet_cons_self (rest : Cache) (now : Nat) (key val : String) (exp : Nat) :
    cacheGet ((key, val, exp) :: rest) now key
      = if now < exp then some val else none := by
  simp [cacheGet, List.find?_cons]

/-- C4: `try_use_code` (and likewise `try_use_token`) returns true iff a
live, unexpired entry exists under the email's key whose stored value is
exactly the candidate; on success the entry is deleted by the call, on
failure the store is unchanged and no error is raised (the call is total),
and an immediately repeated call with the same candidate returns false, so
an issued code is consumed successfully at most once. -/
theorem c4_try_use_consume (c : Cache) (now : Nat) (email cand : String) :
    ((try_use_code c now email cand).1 = true
        ↔ cacheGet c now (email ++ "__code") = some cand)
  ∧ ((try_use_code c now email cand).1 = true →
        (try_use_code c now email cand).2 = cacheDelete c (email ++ "__code"))
  ∧ ((try_use_code c now email cand).1 = false →
        (try_use_code c now email cand).2 = c)
  ∧ ((try_use_code c now email cand).1 = true →
        (try_use_code (try_use_code c now email cand).2 now email cand).1 = false)
  ∧ ((try_use_token c now email cand).1 = true
        ↔ cacheGet c now (email ++ "__token") = some cand)
  ∧ ((try_use_token c now email cand).1 = true →
        (try_use_token c now email cand).2 = cacheDelete c (email ++ "__token"))
  ∧ ((try_use_token c now email cand).1 = false →
        (try_use_token c now email cand).2 = c)
  ∧ ((try_use_token c now email cand).1 = true →
        (try_use_token (try_use_token c now email cand).2 now email cand).1 = false) := by
  by_cases h : cacheGet c now (email ++ "__code") = some cand <;>
  by_cases h' : cacheGet c now (email ++ "__token") = some cand <;>
    simp [try_use_code, try_use_token, h, h', cacheGet_cacheDelete]

/-- Witness for C4 at a concrete store: consuming the stored code succeeds,
empties the store, and a repeated consume fails. -/
theorem c4_try_use_consume_witness :
    (try_use_code [("e__code", "1234", 100)] 0 "e" "1234").2 = ([] : Cache)
  ∧ (try_use_code (try_use_code [("e__code", "1234", 100)] 0 "e" "1234").2
        0 "e" "1234").1 = false := by
  have h := c4_try_use_consume [("e__code", "1234", 100)] 0 "e" "1234"
  have ht : (try_use_code [("e__code", "1234", 100)] 0 "e" "1234").1 = true := by decide
  refine ⟨?_, h.2.2.2.1 ht⟩
  rw [h.2.1 ht]
  decide

/-- C5: if no live code exists for the email, the first
`get_or_create_code` call at `t0` mints and returns the fresh code; a
second call at any `t1` inside the 2-minute TTL returns the identical code
and leaves the store unchanged (no new code is minted); a call after the
TTL has elapsed mints and returns the new generator output. -/
theorem get_or_create_code_hit (c : Cache) (now : Nat) (email fresh v : String)
    (h : cacheGet c now (email ++ "__code") = some v) :
    get_or_create_code c now email fresh = (some v, c) := by
  simp [get_or_create_code, h]

theorem get_or_create_code_miss (c : Cache) (now : Nat) (email fresh : String)
    (h : cacheGet c now (email ++ "__code") = none) :
    get_or_create_code c now email fresh
      = (some fresh, (email ++ "__code", fresh, now + 120)
          :: c.filter (fun e => !(e.1 == email ++ "__code"))) := by
  simp [get_or_create_code, h, cacheAdd, reset_code_ttl, cacheGet_cons_self]

theorem c5_get_or_create_code_idem (c : Cache) (t0 t1 t2 : Nat) (email f1 f2 : String)
    (h0 : cacheGet c t0 (email ++ "__code") = none)
    (h1 : t1 < t0 + 120) (h2 : t0 + 120 ≤ t2) :
    (get_or_create_code c t0 email f1).1 = some f1
  ∧ get_or_create_code (get_or_create_code c t0 email f1).2 t1 email f2
      = (some f1, (get_or_create_code c t0 email f1).2)
  ∧ (get_or_create_code (get_or_create_code c t0 email f1).2 t2 email f2).1 = some f2 := by
  rw [get_or_create_code_miss c t0 email f1 h0]
  have hget1 : cacheGet ((email ++ "__code", f1, t0 + 120)
        :: c.filter (fun e => !(e.1 == email ++ "__code"))) t1 (email ++ "__code")
      = some f1 := by
    rw [cacheGet_cons_self, if_pos h1]
  have hget2 : cacheGet ((email ++ "__code", f1, t0 + 120)
        :: c.filter (fun e => !(e.1 == email ++ "__code"))) t2 (email ++ "__code")
      = none := by
    rw [cacheGet_cons_self, if_neg (by omega)]
  refine ⟨rfl, ?_, ?_⟩
  · exact get_or_create_code_hit _ t1 email f2 f1 hget1
  · rw [show ((some f1, (email ++ "__code", f1, t0 + 120)
        :: c.filter (fun e => !(e.1 == email ++ "__code"))) :
          Option String × Cache).2
        = (email ++ "__code", f1, t0 + 120)
            :: c.filter (fun e => !(e.1 == email ++ "__code")) from rfl,
      get_or_create_code_miss _ t2 email f2 hget2]

/-- Witness for C5: empty store, calls at times 0, 60 and 120. -/
theorem c5_get_or_create_code_idem_witness :
    (get_or_create_code [] 0 "e" "1111").1 = some "1111"
  ∧ get_or_create_code (get_or_create_code [] 0 "e" "1111").2 60 "e" "2222"
      = (some "1111", (get_or_create_code [] 0 "e" "1111").2)
  ∧ (get_or_create_code (get_or_create_code [] 0 "e" "1111").2 120 "e" "2222").1
      = some "2222" :=
  c5_get_or_create_code_idem [] 0 60 120 "e" "1111" "2222"
    (by decide) (by decide) (by decide)

/-- Counterexample to C9 as stated: issue the token "SAMETOKEN" to email
a@x, let b@x's generator coincidentally produce the textually equal stored
value; consuming under b@x with a@x's token string then *succeeds*
(returns true), not fails. -/
theorem c9_counterexample_textually_equal :
    (get_or_create_token [] 0 "a@x" "SAMETOKEN").1 = some "SAMETOKEN"
  ∧ (get_or_create_token (get_or_create_token [] 0 "a@x" "SAMETOKEN").2
        0 "b@x" "SAMETOKEN").1 = some "SAMETOKEN"
  ∧ (try_use_token (get_or_create_token (get_or_create_token [] 0 "a@x" "SAMETOKEN").2
        0 "b@x" "SAMETOKEN").2 0 "b@x" "SAMETOKEN").1 = true
  ∧ (try_use_token (get_or_create_token (get_or_create_token [] 0 "a@x" "SAMETOKEN").2
        0 "b@x" "SAMETOKEN").2 0 "b@x" "SAMETOKEN").2
      = [("a@x__token", "SAMETOKEN", 600)] := by
  decide

/-- C9 amended: because the cache key incorporates the email, consumption
under email B consults only B's own entry: it fails (and leaves the store
unchanged) exactly when B's key holds no live value textually equal to the
candidate — in particular whenever B has no live token — and succeeds,
deleting B's own entry, when B's stored value equals the candidate, even
if that candidate was the token issued to a different email A. -/
theorem c9_token_key_scoped (c : Cache) (now : Nat) (emailB tok : String) :
    (cacheGet c now (emailB ++ "__token") ≠ some tok →
       (try_use_token c now emailB tok).1 = false
       ∧ (try_use_token c now emailB tok).2 = c)
  ∧ (cacheGet c now (emailB ++ "__token") = some tok →
       (try_use_token c now emailB tok).1 = true
       ∧ (try_use_token c now emailB tok).2 = cacheDelete c (emailB ++ "__token")) := by
  by_cases h : cacheGet c now (emailB ++ "__token") = some tok <;>
    simp [try_use_token, h]

/-- Witness for C9 amended: a@x holds token "T", b@x holds nothing, so
consuming "T" under b@x fails and leaves the store unchanged. -/
theorem c9_token_key_scoped_witness :
    (try_use_token [("a@x__token", "T", 600)] 0 "b@x" "T").1 = false
  ∧ (try_use_token [("a@x__token", "T", 600)] 0 "b@x" "T").2
      = [("a@x__token", "T", 600)] :=
  (c9_token_key_scoped [("a@x__token", "T", 600)] 0 "b@x" "T").1 (by decide)

/-! ## Filter-engine lemmas -/

theorem mem_insertSorted (le : Place → Place → Bool) (a x : Place) (l : List Place) :
    x ∈ insertSorted le a l ↔ x = a ∨ x ∈ l := by
  induction l with
  | nil => simp [insertSorted]
  | cons b t ih =>
    simp only [insertSorted]
    split
    · simp [List.mem_cons]
    · simp only [List.mem_cons, ih]
      tauto

theorem mem_sortPlaces (le : Place → Place → Bool) (x : Place) (l : List Place) :
    x ∈ sortPlaces le l ↔ x ∈ l := by
  induction l with
  | nil => simp [sortPlaces]
  | cons a t ih => simp [sortPlaces, mem_insertSorted, ih, List.mem_cons]

theorem mem_orderPlaces (db : DB) (user : Nat) (geomDist : ℚ → ℚ → Place → ℚ)
    (qlon qlat : ℚ) (ordering : String) (qs : List Place) (x : Place) :
    x ∈ orderPlaces db user geomDist qlon qlat ordering qs ↔ x ∈ qs := by
  unfold orderPlaces
  split_ifs <;> simp [mem_sortPlaces]

theorem ratingExclusion_subset (db : DB) (r : Option ℚ) (qs : List Place)
    (x : Place) (h : x ∈ ratingExclusion db r qs) : x ∈ qs := by
  cases r with
  | none => exact h
  | some v => exact (List.mem_filter.mp h).1

theorem lowOwnerRated_iff (db : DB) (R : ℚ) (x : Place) :
    lowOwnerRated db R x = true
    ↔ ∃ rt, (ownerRatings db x).head? = some rt ∧ rt.rating < R := by
  unfold lowOwnerRated
  cases h : ownerRatings db x <;> simp [h]

theorem mem_ratingExclusion (db : DB) (R : ℚ) (qs : List Place)
    (hinj : ∀ a ∈ qs, ∀ b ∈ qs, a.id = b.id → a = b)
    (x : Place) (hx : x ∈ qs) :
    (x ∈ ratingExclusion db (some R) qs
      ↔ ¬ ∃ rt, (ownerRatings db x).head? = some rt ∧ rt.rating < R) := by
  simp only [ratingExclusion]
  rw [List.mem_filter]
  simp only [hx, true_and, Bool.not_eq_true']
  constructor
  · intro h2 hlow
    have hxm : x.id ∈ (qs.filter (lowOwnerRated db R)).map (fun pl => pl.id) :=
      List.mem_map.mpr
        ⟨x, List.mem_filter.mpr ⟨hx, (lowOwnerRated_iff db R x).mpr hlow⟩, rfl⟩
    simp [hxm] at h2
  · intro hnolow
    have hnm : x.id ∉ (qs.filter (lowOwnerRated db R)).map (fun pl => pl.id) := by
      intro hxm
      obtain ⟨y, hy, hyid⟩ := List.mem_map.mp hxm
      have hyqs := (List.mem_filter.mp hy).1
      have hycond := (List.mem_filter.mp hy).2
      have hyx : y = x := hinj y hyqs x hx hyid
      rw [hyx] at hycond
      exact hnolow ((lowOwnerRated_iff db R x).mp hycond)
    simpa using hnm

theorem baseQueryset_sublist (db : DB) (user : Nat)
    (dwithin : ℚ → ℚ → Place → Bool) (p : FilterParams) :
    List.Sublist (baseQueryset db user dwithin p) db.places := by
  unfold baseQueryset
  split <;> exact List.filter_sublist _

theorem geoCategoryFilter_sublist (distKm : ℚ → ℚ → Place → ℚ) (p : FilterParams)
    (qs : List Place) : List.Sublist (geoCategoryFilter distKm p qs) qs :=
  List.filter_sublist _

/-- C7: with `apply_filters = false` the engine returns exactly the places
owned by the user — the right-hand side mentions none of `distance`,
`categories`, `rating`, `ordering`, nor any spatial collaborator, so
membership is independent of them all. -/
theorem c7_apply_filters_false_returns_all (db : DB) (user : Nat)
    (dwithin : ℚ → ℚ → Place → Bool) (distKm geomDist : ℚ → ℚ → Place → ℚ)
    (p : FilterParams) (hA : p.apply_filters = false) :
    get_filters_applied_queryset db user dwithin distKm geomDist p
      = db.places.filter (fun pl => pl.added_by == user) := by
  simp [get_filters_applied_queryset, baseQueryset, hA]

/-- Witness for C7: one user place and one foreign place, restrictive
distance/rating/category parameters, yet the user's place is returned. -/
theorem c7_apply_filters_false_returns_all_witness :
    get_filters_applied_queryset
      ⟨[⟨1, 7, "mine", "a", "art", 0, 0⟩, ⟨2, 8, "other", "a", "art", 0, 0⟩], []⟩ 7
      (fun _ _ _ => false) (fun _ _ _ => 1000000) (fun _ _ _ => 0)
      ⟨false, false, 0, 0, some (1/1000), some ["city"], some 5, some "-rating"⟩
      = [⟨1, 7, "mine", "a", "art", 0, 0⟩] := by
  rw [c7_apply_filters_false_returns_all _ _ _ _ _ _ rfl]
  decide

/-- C3: when filters apply and a distance `d` (0 < d < 40076 km) is given
at a valid query point, every returned place satisfies the kilometre
distance bound `distKm ≤ d` — for an arbitrary distance collaborator, so
the 0.05-degree prefilter never admits a place beyond the bound. -/
theorem c3_distance_bound (db : DB) (user : Nat)
    (dwithin : ℚ → ℚ → Place → Bool) (distKm geomDist : ℚ → ℚ → Place → ℚ)
    (p : FilterParams) (d : ℚ)
    (hlat1 : -90 ≤ p.latitude) (hlat2 : p.latitude ≤ 90)
    (hlon1 : -180 ≤ p.longitude) (hlon2 : p.longitude ≤ 180)
    (hA : p.apply_filters = true)
    (hd : p.distance = some d) (hd0 : 0 < d) (hd1 : d < 40076) :
    ∀ pl ∈ get_filters_applied_queryset db user dwithin distKm geomDist p,
      distKm p.longitude p.latitude pl ≤ d := by
  intro pl hm
  simp only [get_filters_applied_queryset, hA, Bool.not_true, Bool.false_eq_true,
    if_false] at hm
  rw [mem_orderPlaces] at hm
  have h2 := ratingExclusion_subset _ _ _ _ hm
  simp only [geoCategoryFilter, hd, Option.getD_some, List.mem_filter,
    Bool.and_eq_true, decide_eq_true_eq] at h2
  exact h2.2.1

/-- Witness for C3: a place inside the prefilter but with kilometre
distance 3 is returned under the bound d = 4 and indeed satisfies it. -/
theorem c3_distance_bound_witness :
    (⟨1, 7, "p", "a", "art", 0, 0⟩ : Place) ∈ get_filters_applied_queryset
        ⟨[⟨1, 7, "p", "a", "art", 0, 0⟩], []⟩ 7
        (fun _ _ _ => true) (fun _ _ _ => 3) (fun _ _ _ => 0)
        ⟨true, false, 10, 20, some 4, none, none, none⟩
  ∧ (fun _ _ _ => (3 : ℚ) : ℚ → ℚ → Place → ℚ) 20 10 ⟨1, 7, "p", "a", "art", 0, 0⟩
      ≤ 4 :=
  ⟨by decide,
   c3_distance_bound ⟨[⟨1, 7, "p", "a", "art", 0, 0⟩], []⟩ 7
    (fun _ _ _ => true) (fun _ _ _ => 3) (fun _ _ _ => 0)
    ⟨true, false, 10, 20, some 4, none, none, none⟩ 4
    (by norm_num) (by norm_num) (by norm_num) (by norm_num) rfl rfl
    (by norm_num) (by norm_num) ⟨1, 7, "p", "a", "art", 0, 0⟩ (by decide)⟩

/-- C1: with filters applied and threshold `R ∈ [0,5]`, every returned
place either has no owner-rating record or the owner's rating is ≥ R;
moreover a place surviving the geo/category step is kept by the
rating-exclusion step exactly when it is not the case that an owner-rating
exists with value strictly below R — so absence of an owner-rating never
causes exclusion. -/
theorem c1_owner_rating_threshold (db : DB) (user : Nat)
    (dwithin : ℚ → ℚ → Place → Bool) (distKm geomDist : ℚ → ℚ → Place → ℚ)
    (p : FilterParams) (R : ℚ)
    (hA : p.apply_filters = true) (hR : p.rating = some R)
    (hR0 : 0 ≤ R) (hR5 : R ≤ 5)
    (hids : (db.places.map (fun pl => pl.id)).Nodup) :
    (∀ pl ∈ get_filters_applied_queryset db user dwithin distKm geomDist p,
        ownerRatings db pl = []
        ∨ ∃ rt, (ownerRatings db pl).head? = some rt ∧ R ≤ rt.rating)
  ∧ (∀ pl ∈ geoCategoryFilter distKm p (baseQueryset db user dwithin p),
        (pl ∈ ratingExclusion db p.rating
            (geoCategoryFilter distKm p (baseQueryset db user dwithin p))
          ↔ ¬ ∃ rt, (ownerRatings db pl).head? = some rt ∧ rt.rating < R)) := by
  have hsub : List.Sublist (geoCategoryFilter distKm p (baseQueryset db user dwithin p))
      db.places :=
    (geoCategoryFilter_sublist distKm p _).trans (baseQueryset_sublist db user dwithin p)
  have hinj : ∀ a ∈ geoCategoryFilter distKm p (baseQueryset db user dwithin p),
      ∀ b ∈ geoCategoryFilter distKm p (baseQueryset db user dwithin p),
      a.id = b.id → a = b :=
    fun a ha b hb hab =>
      List.inj_on_of_nodup_map hids (hsub.subset ha) (hsub.subset hb) hab
  constructor
  · intro pl hm
    simp only [get_filters_applied_queryset, hA, Bool.not_true, Bool.false_eq_true,
      if_false] at hm
    rw [mem_orderPlaces, hR] at hm
    have hq := ratingExclusion_subset _ _ _ _ hm
    have hnot := (mem_ratingExclusion db R _ hinj pl hq).mp hm
    cases hor : ownerRatings db pl with
    | nil => exact Or.inl rfl
    | cons rt t =>
      refine Or.inr ⟨rt, by simp [hor], ?_⟩
      by_contra hlt
      exact hnot ⟨rt, by simp [hor], lt_of_not_le hlt⟩
  · intro pl hq
    rw [hR]
    exact mem_ratingExclusion db R _ hinj pl hq

/-- Witness for C1: two candidate places, the owner rated place 1 at 2.0
and place 2 not at all; with threshold 3 place 1 is excluded and place 2
is kept. -/
theorem c1_owner_rating_threshold_witness :
    ownerRatings ⟨[⟨1, 7, "p1", "a", "art", 0, 0⟩, ⟨2, 7, "p2", "a", "art", 0, 0⟩],
        [⟨7, 1, 2⟩]⟩ ⟨2, 7, "p2", "a", "art", 0, 0⟩ = []
  ∨ ∃ rt, (ownerRatings ⟨[⟨1, 7, "p1", "a", "art", 0, 0⟩,
        ⟨2, 7, "p2", "a", "art", 0, 0⟩], [⟨7, 1, 2⟩]⟩
        ⟨2, 7, "p2", "a", "art", 0, 0⟩).head? = some rt
      ∧ (3 : ℚ) ≤ rt.rating :=
  (c1_owner_rating_threshold
    ⟨[⟨1, 7, "p1", "a", "art", 0, 0⟩, ⟨2, 7, "p2", "a", "art", 0, 0⟩], [⟨7, 1, 2⟩]⟩ 7
    (fun _ _ _ => true) (fun _ _ _ => 1) (fun _ _ _ => 0)
    ⟨true, false, 0, 0, some 5, none, some 3, none⟩ 3
    rfl rfl (by norm_num) (by norm_num) (by decide)).1
    ⟨2, 7, "p2", "a", "art", 0, 0⟩ (by decide)

/-- Counterexample to C2 as stated: with no rating records by the
requesting user on the place, the `Avg` ordering annotation is SQL `NULL`
(`none`), not the claimed defined default value 0. -/
theorem c2_counterexample_null_average :
    userPlaceRatings ⟨[⟨1, 7, "n", "a", "art", 0, 0⟩], []⟩ 7 1 = []
  ∧ ratingAvg ⟨[⟨1, 7, "n", "a", "art", 0, 0⟩], []⟩ 7 1 = none
  ∧ ratingAvg ⟨[⟨1, 7, "n", "a", "art", 0, 0⟩], []⟩ 7 1 ≠ some 0 := by
  decide

/-- C2 amended: with zero rating records by the requesting user the
ordering annotation is `none` (SQL `NULL`) while the display projection
`get_rating` yields the defined default 0; with exactly one record both
yield that record's value. -/
theorem c2_rating_aggregation (db : DB) (user pid : Nat) :
    (userPlaceRatings db user pid = [] →
        ratingAvg db user pid = none ∧ get_rating db user pid = 0)
  ∧ (∀ rt, userPlaceRatings db user pid = [rt] →
        ratingAvg db user pid = some rt.rating
        ∧ get_rating db user pid = rt.rating) := by
  constructor
  · intro h
    simp [ratingAvg, get_rating, h]
  · intro rt h
    simp [ratingAvg, get_rating, h]

/-- Witness for C2 amended: user 7 rated place 1 with 4 and never rated
place 2. -/
theorem c2_rating_aggregation_witness :
    (ratingAvg ⟨[⟨1, 7, "n", "a", "art", 0, 0⟩], [⟨7, 1, 4⟩]⟩ 7 1
        = some ((⟨7, 1, 4⟩ : PlaceRating)).rating
      ∧ get_rating ⟨[⟨1, 7, "n", "a", "art", 0, 0⟩], [⟨7, 1, 4⟩]⟩ 7 1
        = (⟨7, 1, 4⟩ : PlaceRating).rating)
  ∧ (ratingAvg ⟨[⟨1, 7, "n", "a", "art", 0, 0⟩], [⟨7, 1, 4⟩]⟩ 7 2 = none
      ∧ get_rating ⟨[⟨1, 7, "n", "a", "art", 0, 0⟩], [⟨7, 1, 4⟩]⟩ 7 2 = 0) :=
  ⟨(c2_rating_aggregation ⟨[⟨1, 7, "n", "a", "art", 0, 0⟩], [⟨7, 1, 4⟩]⟩ 7 1).2
      ⟨7, 1, 4⟩ (by decide),
   (c2_rating_aggregation ⟨[⟨1, 7, "n", "a", "art", 0, 0⟩], [⟨7, 1, 4⟩]⟩ 7 2).1
      (by decide)⟩

/-- C8: every key of the split-mode mapping is a category with at least
one matching place, every place in a bucket has exactly the bucket's
category, and a bucket holds min(count, 10) places — never more than
ten. -/
theorem c8_split_mode_invariant (qs : List Place) (cat : String) (bucket : List Place)
    (h : (cat, bucket) ∈ splitByCategories qs) :
    (∃ pl ∈ qs, pl.category = cat)
  ∧ (∀ pl ∈ bucket, pl.category = cat)
  ∧ bucket.length = min 10 (qs.countP (fun pl => pl.category == cat))
  ∧ bucket.length ≤ 10 := by
  simp only [splitByCategories, List.mem_map, List.mem_filter] at h
  obtain ⟨c0, ⟨hc0mem, hc0pos⟩, heq⟩ := h
  have hcat : c0 = cat := congrArg Prod.fst heq
  have hbucket : (qs.filter (fun pl => pl.category == c0)).take 10 = bucket :=
    congrArg Prod.snd heq
  subst hcat
  subst hbucket
  refine ⟨?_, ?_, ?_, ?_⟩
  · have hpos : 0 < qs.countP (fun pl => pl.category == c0) := by
      simpa using hc0pos
    obtain ⟨pl, hpl, hplcat⟩ := List.countP_pos_iff.mp hpos
    exact ⟨pl, hpl, by simpa using hplcat⟩
  · intro pl hpl
    have := (List.mem_filter.mp (List.mem_of_mem_take hpl)).2
    simpa using this
  · rw [List.length_take, List.countP_eq_length_filter]
  · rw [List.length_take]
    exact Nat.min_le_left _ _

/-- Witness for C8: twelve "city" places produce a "city" bucket of
exactly ten entries, all of category "city". -/
theorem c8_split_mode_invariant_witness :
    ("city", (cityPlaces12.filter (fun pl => pl.category == "city")).take 10)
        ∈ splitByCategories cityPlaces12
  ∧ ((cityPlaces12.filter (fun pl => pl.category == "city")).take 10).length = 10
  ∧ (∀ pl ∈ (cityPlaces12.filter (fun pl => pl.category == "city")).take 10,
        pl.category = "city") := by
  have h := c8_split_mode_invariant cityPlaces12 "city"
    ((cityPlaces12.filter (fun pl => pl.category == "city")).take 10) (by decide)
  refine ⟨by decide, ?_, h.2.1⟩
  rw [h.2.2.1]
  decide

/-- C10: a request that passes `PlaceFilterNewSerializer` validation —
whatever `apply_filters` is — necessarily supplied both coordinates, with
latitude in [-90, 90] and longitude in [-180, 180]; contrapositively a
request missing a coordinate or carrying one out of range is rejected
before any result is computed. -/
theorem c10_coordinates_always_required (r : RawFilterParams) (p : FilterParams)
    (h : validFilterParams r = some p) :
    (∃ v, r.latitude = some v ∧ -90 ≤ v ∧ v ≤ 90)
  ∧ (∃ v, r.longitude = some v ∧ -180 ≤ v ∧ v ≤ 180) := by
  unfold validFilterParams at h
  split at h
  case _ af sc lat lon heq1 heq2 heq3 heq4 =>
    split at h
    · rename_i hcond
      simp only [Bool.and_eq_true] at hcond
      obtain ⟨⟨⟨⟨⟨hL, hLo⟩, _⟩, _⟩, _⟩, _⟩ := hcond
      simp only [validate_latitude, validate_longitude, Bool.not_eq_true',
        Bool.or_eq_false_iff, decide_eq_false_iff_not, not_lt] at hL hLo
      exact ⟨⟨lat, heq3, hL.1, hL.2⟩, ⟨lon, heq4, hLo.1, hLo.2⟩⟩
    · exact absurd h (by simp)
  case _ =>
    exact absurd h (by simp)

/-- Witness for C10: a validated request with `apply_filters = false`
still carries in-range coordinates. -/
theorem c10_coordinates_always_required_witness :
    (∃ v, (some (10 : ℚ)) = some v ∧ -90 ≤ v ∧ v ≤ 90)
  ∧ (∃ v, (some (20 : ℚ)) = some v ∧ -180 ≤ v ∧ v ≤ 180) :=
  c10_coordinates_always_required
    ⟨some false, some false, some 10, some 20, none, none, none, none⟩
    ⟨false, false, 10, 20, none, none, none, none⟩ (by decide)

end Routes4Life
